import Mathlib

/-!
Verification development for the slasher-tv-ai pipeline orchestration core.

The definitions below are a shallow embedding of the TypeScript dashboard
backend: the Mongoose schemas (Listing, Script, Video, Job) and the
controller endpoints that mutate them (scriptController, videoController,
listingController).  Dates are modelled as abstract Nat timestamps passed
in by the caller; the MongoDB store is modelled by passing the affected
documents explicitly and returning their updated values together with the
HTTP-level response.
-/

namespace SlasherTV

/-- Listing pipeline status enum, from the Listing schema. -/
inductive ListingStatus where
  | pending
  | images_downloaded
  | images_processed
  | script_generated
  | script_approved
  | voiceover_generated
  | video_generated
  | video_approved
  | published
  | error
deriving DecidableEq, Repr

/-- Script review status enum, from the Script schema. -/
inductive ScriptStatus where
  | draft
  | pending_approval
  | approved
  | rejected
deriving DecidableEq, Repr

/-- Video status enum, from the Video schema. -/
inductive VideoStatus where
  | processing
  | ready
  | approved
  | rejected
  | published
deriving DecidableEq, Repr

/-- Job status enum, from the Job schema. -/
inductive JobStatus where
  | queued
  | processing
  | completed
  | failed
deriving DecidableEq, Repr

/-- One entry of the append-only script version history (ScriptVersionSchema). -/
structure ScriptVersion where
  content : String
  createdAt : Nat
  createdBy : String
deriving DecidableEq, Repr

/-- A Script document (ScriptSchema). -/
structure Script where
  listingId : String
  content : String
  wordCount : Nat
  estimatedDuration : Nat
  status : ScriptStatus
  approvedBy : Option String := none
  approvedAt : Option Nat := none
  rejectionReason : Option String := none
  versions : List ScriptVersion := []
deriving DecidableEq, Repr

/-- The assets sub-document of a Listing (ListingAssetsSchema). -/
structure ListingAssets where
  originalPhotos : List String := []
  processedPhotos : List String := []
  voiceoverPath : Option String := none
  qrCodePath : Option String := none
  videoPath : Option String := none
deriving DecidableEq, Repr

/-- A Listing document (ListingSchema); vehicle attributes not used by the
orchestration logic are omitted. -/
structure Listing where
  dealerId : String
  stockNumber : String
  status : ListingStatus
  assets : ListingAssets := {}
deriving DecidableEq, Repr

/-- A Video document (VideoSchema). -/
structure Video where
  listingId : String
  dealerId : String
  path : String
  duration : Nat
  resolution : String
  fileSize : Nat
  status : VideoStatus
  approvedBy : Option String := none
  approvedAt : Option Nat := none
  publishedAt : Option Nat := none
  fastChannelId : Option String := none
deriving DecidableEq, Repr

/-- Recursion core of `jsSplitWs`: `cur` holds the characters of the
current fragment in reverse, `inWs` records whether the previous character
belonged to a whitespace run whose fragment boundary was already emitted. -/
def jsSplitWsGo : List Char → List Char → Bool → List String
  | [], cur, _ => [String.mk cur.reverse]
  | c :: cs, cur, inWs =>
    if c.isWhitespace then
      if inWs then jsSplitWsGo cs cur true
      else String.mk cur.reverse :: jsSplitWsGo cs [] true
    else jsSplitWsGo cs (c :: cur) false

/-- JavaScript `content.split(/\s+/)` as used by scriptController.update
and scriptController.revertVersion: splits at each maximal whitespace run
and keeps the empty fragments at the boundaries, so the empty string
splits to a single empty fragment. -/
def jsSplitWs (s : String) : List String :=
  jsSplitWsGo s.toList [] false

/-- `content.split(/\s+/).length`, the word-count model of the source. -/
def jsWordCount (s : String) : Nat :=
  (jsSplitWs s).length

/-- `Math.ceil(wordCount / 2.5)`, the estimated-duration model of the
source, computed in exact natural arithmetic. -/
def jsCeilDiv25 (w : Nat) : Nat :=
  (2 * w + 4) / 5

/-- Synchronous error responses of the embedded endpoints. -/
inductive ApiError where
  | notFound
  | invalidVersionIndex
  | notApprovedForPublish
deriving DecidableEq, Repr

/-- scriptController.update: pushes the current content onto the version
history, overwrites content, recomputes wordCount and estimatedDuration,
resets the script status to pending_approval, and unconditionally sets the
parent Listing (matched by stockNumber = script.listingId) to
script_generated. -/
def scriptUpdate (s : Script) (l : Listing) (content : String)
    (editedBy : Option String) (now : Nat) : Script × Listing :=
  let wc := jsWordCount content
  let s' := { s with
    versions := s.versions ++
      [{ content := s.content, createdAt := now, createdBy := editedBy.getD "admin" }],
    content := content,
    wordCount := wc,
    estimatedDuration := jsCeilDiv25 wc,
    status := ScriptStatus.pending_approval }
  (s', { l with status := ListingStatus.script_generated })

/-- scriptController.revertVersion: rejects an out-of-bounds versionIndex
with a 400 response and no mutation; otherwise pushes the current content
as a new version, then copies the content of the selected version back
into the document and recomputes the derived fields.  Returns the
post-state of the script together with the response. -/
def scriptRevertVersion (s : Script) (versionIndex : Int) (now : Nat) :
    Script × Except ApiError Unit :=
  if versionIndex < 0 ∨ (s.versions.length : Int) ≤ versionIndex then
    (s, Except.error ApiError.invalidVersionIndex)
  else
    let versions' := s.versions ++
      [{ content := s.content, createdAt := now, createdBy := "admin (revert)" }]
    let c := (versions'.getD versionIndex.toNat
      { content := "", createdAt := 0, createdBy := "" }).content
    let wc := jsWordCount c
    ({ s with
        versions := versions',
        content := c,
        wordCount := wc,
        estimatedDuration := jsCeilDiv25 wc,
        status := ScriptStatus.pending_approval },
     Except.ok ())

/-- scriptController.approve: findByIdAndUpdate that unconditionally sets
the script status to approved and stamps approvedBy/approvedAt, then
unconditionally sets the parent Listing to script_approved.  The source
performs no check of the current script status. -/
def scriptApprove (s : Script) (l : Listing) (approvedBy : Option String)
    (now : Nat) : Script × Listing :=
  ({ s with
      status := ScriptStatus.approved,
      approvedBy := some (approvedBy.getD "admin"),
      approvedAt := some now },
   { l with status := ListingStatus.script_approved })

/-- scriptController.reject: findByIdAndUpdate that unconditionally sets
the script status to rejected and records the reason as given, with no
validation of the reason; the parent Listing is not touched. -/
def scriptReject (s : Script) (l : Listing) (reason : String) :
    Script × Listing :=
  ({ s with status := ScriptStatus.rejected, rejectionReason := some reason }, l)

/-- videoController.approve: findByIdAndUpdate that unconditionally sets
the video status to approved and stamps approvedBy/approvedAt, then
unconditionally sets the parent Listing to video_approved. -/
def videoApprove (v : Video) (l : Listing) (approvedBy : Option String)
    (now : Nat) : Video × Listing :=
  ({ v with
      status := VideoStatus.approved,
      approvedBy := some (approvedBy.getD "admin"),
      approvedAt := some now },
   { l with status := ListingStatus.video_approved })

/-- videoController.reject: findByIdAndUpdate that unconditionally sets
the video status to rejected; the request-body reason is never read, and
the parent Listing is not touched. -/
def videoReject (v : Video) (l : Listing) (_reason : String) :
    Video × Listing :=
  ({ v with status := VideoStatus.rejected }, l)

/-- videoController.publish: fails with a 400 response when the video is
not approved, leaving both documents untouched; otherwise marks the video
published, stamps publishedAt and fastChannelId, and sets the parent
Listing to published. -/
def videoPublish (v : Video) (l : Listing) (channelId : Option String)
    (now : Nat) : (Video × Listing) × Except ApiError Unit :=
  if v.status ≠ VideoStatus.approved then
    ((v, l), Except.error ApiError.notApprovedForPublish)
  else
    (({ v with
          status := VideoStatus.published,
          publishedAt := some now,
          fastChannelId := channelId },
      { l with status := ListingStatus.published }),
     Except.ok ())

/-- Response produced by videoController.stream: HTTP status, the headers
it writes, and the streamed body (bytes as naturals). -/
structure StreamResponse where
  status : Nat
  contentRange : Option String := none
  acceptRanges : Option String := none
  contentLength : Nat
  contentType : String
  body : List Nat
deriving DecidableEq, Repr

/-- videoController.stream, after the Range header has been parsed: a
present header `bytes=start-end` arrives as `some (start, some e)` (a
missing end as `some (start, none)`, defaulted to fileSize - 1); an absent
header as `none`.  The 206 branch streams the inclusive byte span via
createReadStream with the given start and end. -/
def videoStream (fileBytes : List Nat) (range : Option (Nat × Option Nat)) :
    StreamResponse :=
  let fileSize := fileBytes.length
  match range with
  | some (start, eOpt) =>
    let e := eOpt.getD (fileSize - 1)
    let chunksize := e - start + 1
    { status := 206,
      contentRange := some ("bytes " ++ toString start ++ "-" ++ toString e
        ++ "/" ++ toString fileSize),
      acceptRanges := some "bytes",
      contentLength := chunksize,
      contentType := "video/mp4",
      body := (fileBytes.drop start).take chunksize }
  | none =>
    { status := 200,
      contentLength := fileSize,
      contentType := "video/mp4",
      body := fileBytes }

/-- Observable pipeline side effects emitted by the regenerate endpoints,
in program order: unlinking a file, and spawning the fire-and-forget
pipelineService.generateVideo call. -/
inductive PipelineEvent where
  | deleteFile (path : String)
  | dispatchVideoGen (listingId : String) (dealerId : String)
deriving DecidableEq, Repr

/-- listingController.regenerateVideo: if the listing has a video path and
the file exists, unlink it first; then reset the listing to
voiceover_generated with the video path cleared; then trigger
pipelineService.generateVideo without awaiting or checking its outcome.
Returns the post-state (file set, listing) and the emitted event trace in
program order. -/
def regenerateVideoListing (files : List String) (l : Listing) :
    (List String × Listing) × List PipelineEvent :=
  let (files1, ev1) :=
    match l.assets.videoPath with
    | some p => if p ∈ files then (files.erase p, [PipelineEvent.deleteFile p])
                else (files, [])
    | none => (files, [])
  let l' := { l with
    status := ListingStatus.voiceover_generated,
    assets := { l.assets with videoPath := none } }
  ((files1, l'), ev1 ++ [PipelineEvent.dispatchVideoGen l.stockNumber l.dealerId])

/-- videoController.regenerate: if the video file exists, unlink it first;
then reset the video document to processing; then trigger
pipelineService.generateVideo without awaiting or checking its outcome. -/
def regenerateVideoDoc (files : List String) (v : Video) :
    (List String × Video) × List PipelineEvent :=
  let (files1, ev1) :=
    if v.path ∈ files then (files.erase v.path, [PipelineEvent.deleteFile v.path])
    else (files, [])
  let v' := { v with status := VideoStatus.processing }
  ((files1, v'), ev1 ++ [PipelineEvent.dispatchVideoGen v.listingId v.dealerId])

/-- Job type enum, from the Job schema. -/
inductive JobType where
  | import_csv
  | download_images
  | process_images
  | generate_script
  | generate_voiceover
  | generate_video
  | regenerate_video
  | publish_video
deriving DecidableEq, Repr

/-- A Job ledger row (JobSchema). -/
structure Job where
  jobType : JobType
  dealerId : String
  listingId : String
  status : JobStatus
  progress : Nat := 0
  startedAt : Option Nat := none
  completedAt : Option Nat := none
deriving DecidableEq, Repr

/-- A Job counts as active while queued or processing. -/
def JobStatus.isActive : JobStatus → Bool
  | JobStatus.queued => true
  | JobStatus.processing => true
  | JobStatus.completed => false
  | JobStatus.failed => false

/-- Whether a Job row is an active Job of the given listing. -/
def jobMatches (listingId : String) (j : Job) : Bool :=
  (j.listingId == listingId) && j.status.isActive

/-- Number of active Jobs of a listing in the ledger. -/
def activeCount (jobs : List Job) (listingId : String) : Nat :=
  (jobs.filter (jobMatches listingId)).length

/-- The atomic check of Dispatch step 1: some Job of the listing is in
queued or processing. -/
def hasActiveJob (jobs : List Job) (listingId : String) : Bool :=
  jobs.any (jobMatches listingId)

/-- Dispatch failure modes relevant to the exclusivity invariant. -/
inductive DispatchError where
  | conflictError
deriving DecidableEq, Repr

/-- Modelled from the spec: the Job Coordinator operation
`Dispatch(listingId, stageType)` of spec section 4.2 is absent from src/ —
the repository declares the Job schema but no code under src/ ever creates
or checks Job rows.  Following steps 1 and 3 of the spec algorithm: check
atomically that no Job of the listing is in queued or processing, failing
with ConflictError and leaving the ledger unchanged; otherwise create the
Job row (created queued then immediately moved to processing, recording
startedAt).  Step 2 (state-machine validation) is independent of the
exclusivity behaviour because the conflict check precedes it, and is
omitted here.  Returns the post-state of the ledger and the response. -/
def dispatch (jobs : List Job) (t : JobType) (dealerId listingId : String)
    (now : Nat) : List Job × Except DispatchError Unit :=
  if hasActiveJob jobs listingId then
    (jobs, Except.error DispatchError.conflictError)
  else
    (jobs ++ [{ jobType := t, dealerId := dealerId, listingId := listingId,
                status := JobStatus.processing, startedAt := some now }],
     Except.ok ())

/-- Modelled from the spec: one mutation of the Job ledger by its only
writer, the Job Coordinator (spec sections 4.2 and 3): a successful
Dispatch, or moving one existing Job to a terminal status (spec steps 5
and 6: completed or failed; terminal states are immutable). -/
inductive LedgerStep : List Job → List Job → Prop
  | dispatchOk (jobs : List Job) (t : JobType) (d L : String) (now : Nat) :
      (dispatch jobs t d L now).2 = Except.ok () →
      LedgerStep jobs (dispatch jobs t d L now).1
  | finish (pre post : List Job) (j : Job) (st : JobStatus) (cAt : Option Nat) :
      st.isActive = false →
      LedgerStep (pre ++ j :: post)
        (pre ++ { j with status := st, completedAt := cAt } :: post)

/-- Ledger states reachable from the empty ledger under Coordinator steps. -/
inductive ReachableLedger : List Job → Prop
  | empty : ReachableLedger []
  | step {a b : List Job} : ReachableLedger a → LedgerStep a b → ReachableLedger b

/-! Concrete documents used to instantiate the claim theorems. -/

/-- A processing Job row for listing S1, as produced by a first dispatch. -/
def jobW : Job :=
  { jobType := JobType.generate_video, dealerId := "D1", listingId := "S1",
    status := JobStatus.processing, startedAt := some 3 }

/-- A file store holding one rendered video artifact. -/
def filesW : List String := ["output/video-S1.mp4"]

/-- A listing whose video artifact exists on disk. -/
def listingRegenW : Listing :=
  { dealerId := "D1", stockNumber := "S1",
    status := ListingStatus.video_generated,
    assets := { videoPath := some "output/video-S1.mp4" } }

/-- A video document whose file exists on disk. -/
def videoRegenW : Video :=
  { listingId := "S1", dealerId := "D1", path := "output/video-S1.mp4",
    duration := 30, resolution := "1920x1080", fileSize := 1000,
    status := VideoStatus.ready }

/-- A script still in draft, not yet reviewable. -/
def scriptDraftW : Script :=
  { listingId := "S1", content := "a draft script", wordCount := 3,
    estimatedDuration := 2, status := ScriptStatus.draft, versions := [] }

/-- A plain listing at the script_generated stage. -/
def listingPlainW : Listing :=
  { dealerId := "D1", stockNumber := "S1",
    status := ListingStatus.script_generated }

/-- A script awaiting approval, with an empty version history. -/
def scriptPendingW : Script :=
  { listingId := "S2", content := "words awaiting review", wordCount := 3,
    estimatedDuration := 2, status := ScriptStatus.pending_approval,
    versions := [] }

/-- A listing at the voiceover_generated stage. -/
def listingVoW : Listing :=
  { dealerId := "D2", stockNumber := "S2",
    status := ListingStatus.voiceover_generated }

/-- A video still in the ready state, not yet approved. -/
def videoReadyW : Video :=
  { listingId := "S3", dealerId := "D3", path := "output/video-S3.mp4",
    duration := 30, resolution := "1920x1080", fileSize := 1000,
    status := VideoStatus.ready }

/-- An approved video, ready to publish. -/
def videoApprovedW : Video :=
  { listingId := "S3", dealerId := "D3", path := "output/video-S3.mp4",
    duration := 30, resolution := "1920x1080", fileSize := 1000,
    status := VideoStatus.approved, approvedBy := some "admin",
    approvedAt := some 5 }

/-- A listing at the video_approved stage. -/
def listingVaW : Listing :=
  { dealerId := "D3", stockNumber := "S3",
    status := ListingStatus.video_approved }

/-- The natural-arithmetic form `(2 * w + 4) / 5` is exactly the ceiling
of `w / 2.5`. -/
theorem jsCeilDiv25_eq_ceil (w : Nat) :
    jsCeilDiv25 w = ⌈(w : ℚ) / (5 / 2)⌉₊ := by
  have hmod : (2 * w + 4) % 5 + 5 * ((2 * w + 4) / 5) = 2 * w + 4 :=
    Nat.mod_add_div _ _
  have hlt : (2 * w + 4) % 5 < 5 := Nat.mod_lt _ (by omega)
  rcases Nat.eq_zero_or_pos w with hw | hw
  · subst hw; simp [jsCeilDiv25]
  · have h5 : (0 : ℚ) < 5 := by norm_num
    have hne : jsCeilDiv25 w ≠ 0 := by
      unfold jsCeilDiv25
      omega
    rw [eq_comm, Nat.ceil_eq_iff hne]
    unfold jsCeilDiv25 at *
    constructor
    · rw [div_div_eq_mul_div, lt_div_iff₀ h5]
      have hgoal : ((2 * w + 4) / 5 - 1) * 5 < w * 2 := by omega
      exact_mod_cast hgoal
    · rw [div_div_eq_mul_div, div_le_iff₀ h5]
      have hgoal : w * 2 ≤ ((2 * w + 4) / 5) * 5 := by omega
      exact_mod_cast hgoal

/-- getD on a list extended on the right, below the original length. -/
theorem getD_append_left (xs ys : List ScriptVersion) (n : Nat) (d : ScriptVersion)
    (h : n < xs.length) : (xs ++ ys).getD n d = xs.getD n d := by
  simp [List.getD_eq_getElem?_getD, List.getElem?_append_left h]

/-- getD at the freshly appended last position. -/
theorem getD_concat_length (xs : List ScriptVersion) (a d : ScriptVersion) :
    (xs ++ [a]).getD xs.length d = a := by
  simp [List.getD_eq_getElem?_getD, List.getElem?_concat_length]

theorem activeCount_append (xs ys : List Job) (L : String) :
    activeCount (xs ++ ys) L = activeCount xs L + activeCount ys L := by
  simp [activeCount, List.filter_append]

theorem activeCount_cons (j : Job) (xs : List Job) (L : String) :
    activeCount (j :: xs) L =
      (if jobMatches L j then 1 else 0) + activeCount xs L := by
  simp only [activeCount, List.filter_cons]
  by_cases hm : jobMatches L j
  · simp [hm]
    omega
  · simp [hm]

theorem activeCount_singleton (j : Job) (L : String) :
    activeCount [j] L = if jobMatches L j then 1 else 0 := by
  rw [activeCount_cons]
  simp [activeCount]

theorem hasActiveJob_false_iff (jobs : List Job) (L : String) :
    hasActiveJob jobs L = false ↔ activeCount jobs L = 0 := by
  induction jobs with
  | nil => simp [hasActiveJob, activeCount]
  | cons j js ih =>
    rw [activeCount_cons]
    simp only [hasActiveJob, List.any_cons] at *
    by_cases hm : jobMatches L j <;> simp [hm, ih]

theorem ledgerStep_activeCount_le {a b : List Job} (h : LedgerStep a b)
    (L : String) (hinv : activeCount a L ≤ 1) : activeCount b L ≤ 1 := by
  cases h with
  | dispatchOk _ t d L' now hok =>
    have hA : hasActiveJob a L' = false := by
      by_contra hcon
      rw [dispatch, if_pos (by simpa using hcon)] at hok
      exact absurd hok (by simp)
    rw [dispatch, if_neg (by simp [hA])]
    simp only
    rw [activeCount_append, activeCount_singleton]
    simp only [jobMatches]
    by_cases hL : L' = L
    · have h0 : activeCount a L = 0 := by
        rw [← hL]
        exact (hasActiveJob_false_iff a L').mp hA
      simp [hL, JobStatus.isActive]
      omega
    · simp [hL, JobStatus.isActive]
      exact hinv
  | finish pre post j st cAt hst =>
    have hj : jobMatches L { j with status := st, completedAt := cAt } = false := by
      simp [jobMatches, hst]
    rw [activeCount_append, activeCount_cons] at hinv ⊢
    rw [hj]
    by_cases hm : jobMatches L j
    · simp [hm] at hinv
      simp
      omega
    · simp [hm] at hinv
      simp
      omega

theorem reachable_activeCount_le (jobs : List Job)
    (h : ReachableLedger jobs) (L : String) : activeCount jobs L ≤ 1 := by
  induction h with
  | empty => simp [activeCount]
  | step _ hs ih => exact ledgerStep_activeCount_le hs L ih

/-- Claim C1: for every listing L, at every reachable state of the Job
ledger at most one Job with that listingId has status in queued or
processing, and a Dispatch request for a listing that already has such an
active Job fails with ConflictError and leaves the ledger unchanged, so
no second Job is created. -/
theorem claim1_job_exclusivity (jobs : List Job) (h : ReachableLedger jobs)
    (L : String) :
    activeCount jobs L ≤ 1 ∧
    ∀ (t : JobType) (d : String) (now : Nat), hasActiveJob jobs L = true →
      dispatch jobs t d L now
        = (jobs, Except.error DispatchError.conflictError) := by
  refine ⟨reachable_activeCount_le jobs h L, ?_⟩
  intro t d now hA
  rw [dispatch, if_pos hA]

/-- Witness for claim C1, at the one-job ledger reached by one dispatch
from the empty ledger. -/
theorem claim1_job_exclusivity_witness :
    activeCount [jobW] "S1" ≤ 1 ∧
    dispatch [jobW] JobType.generate_video "D1" "S1" 7
      = ([jobW], Except.error DispatchError.conflictError) := by
  have hstep : LedgerStep [] [jobW] := by
    have h0 : (dispatch [] JobType.generate_video "D1" "S1" 3).1 = [jobW] := rfl
    exact h0 ▸ LedgerStep.dispatchOk [] JobType.generate_video "D1" "S1" 3 rfl
  have hreach : ReachableLedger [jobW] :=
    ReachableLedger.step ReachableLedger.empty hstep
  have h := claim1_job_exclusivity [jobW] hreach "S1"
  exact ⟨h.1, h.2 JobType.generate_video "D1" 7 (by decide)⟩

/-- Claim C3 as stated fails on the code: scriptController.approve is an
unconditional findByIdAndUpdate with no status check.  At a concrete
script with status draft the call succeeds and moves the status to
approved, instead of failing with InvalidTransition and changing
nothing. -/
theorem claim3_counterexample :
    scriptDraftW.status = ScriptStatus.draft ∧
    (scriptApprove scriptDraftW listingPlainW none 4).1.status
      = ScriptStatus.approved ∧
    (scriptApprove scriptDraftW listingPlainW none 4).1.status
      ≠ scriptDraftW.status := by
  refine ⟨rfl, rfl, ?_⟩
  decide

/-- Claim C3 amended: Approve performs no precondition check on the
current artifact status: for every script and every video, whatever the
current status, approve sets the artifact status to approved and advances
the parent Listing to script_approved respectively video_approved. -/
theorem claim3_amended (s : Script) (v : Video) (l l2 : Listing)
    (ab : Option String) (now : Nat) :
    (scriptApprove s l ab now).1.status = ScriptStatus.approved ∧
    (scriptApprove s l ab now).2.status = ListingStatus.script_approved ∧
    (videoApprove v l2 ab now).1.status = VideoStatus.approved ∧
    (videoApprove v l2 ab now).2.status = ListingStatus.video_approved :=
  ⟨rfl, rfl, rfl, rfl⟩

/-- Claim C5: RevertScriptVersion with an out-of-bounds versionIndex
returns the out-of-range error (the 400 invalid-version-index response)
and leaves the whole script document — content, versions, wordCount,
estimatedDuration and status — unchanged. -/
theorem claim5_revert_out_of_range (s : Script) (i : Int) (now : Nat)
    (h : i < 0 ∨ (s.versions.length : Int) ≤ i) :
    scriptRevertVersion s i now
      = (s, Except.error ApiError.invalidVersionIndex) := by
  rw [scriptRevertVersion, if_pos h]

/-- Witness for claim C5: reverting to index 5 of a script whose version
history is empty. -/
theorem claim5_revert_out_of_range_witness :
    ((5 : Int) < 0 ∨ (scriptPendingW.versions.length : Int) ≤ 5) ∧
    scriptRevertVersion scriptPendingW 5 9
      = (scriptPendingW, Except.error ApiError.invalidVersionIndex) :=
  ⟨Or.inr (by decide),
   claim5_revert_out_of_range scriptPendingW 5 9 (Or.inr (by decide))⟩

/-- Claim C10: every successful UpdateScriptContent also overwrites the
parent Listing status to script_generated, unconditionally on the prior
Listing status — the embedded endpoint rewrites the whole listing to the
same record with status script_generated, for every starting listing,
including ones already at voiceover_generated, video_approved or
published. -/
theorem claim10_listing_overwrite (s : Script) (l : Listing) (c : String)
    (eb : Option String) (now : Nat) :
    (scriptUpdate s l c eb now).2
      = { l with status := ListingStatus.script_generated } := rfl

/-- Claim C4: UpdateScriptContent followed by RevertScriptVersion at the
index of the pre-update version (the position where the update pushed the
old content) succeeds, restores the content byte-identical, and appends
exactly two entries to the version history in total. -/
theorem claim4_roundtrip (s : Script) (l : Listing) (c : String)
    (eb : Option String) (n1 n2 : Nat) :
    (scriptRevertVersion (scriptUpdate s l c eb n1).1
        (s.versions.length : Int) n2).2 = Except.ok () ∧
    (scriptRevertVersion (scriptUpdate s l c eb n1).1
        (s.versions.length : Int) n2).1.content = s.content ∧
    (scriptRevertVersion (scriptUpdate s l c eb n1).1
        (s.versions.length : Int) n2).1.versions.length
      = s.versions.length + 2 := by
  have hlen : (scriptUpdate s l c eb n1).1.versions.length
      = s.versions.length + 1 := by
    simp [scriptUpdate]
  have hcond : ¬((s.versions.length : Int) < 0 ∨
      ((scriptUpdate s l c eb n1).1.versions.length : Int)
        ≤ (s.versions.length : Int)) := by
    rw [hlen]
    push_cast
    omega
  rw [scriptRevertVersion, if_neg hcond]
  refine ⟨rfl, ?_, ?_⟩
  · simp only [scriptUpdate, Int.toNat_natCast]
    rw [getD_append_left _ _ _ _ (by simp), getD_concat_length]
  · simp [scriptUpdate]

/-- Claim C6: UpdateScriptContent appends the previous content to the
version history, sets the content to the new content, recomputes
wordCount from the new content with the split model of the source, sets
estimatedDuration to the ceiling of wordCount / 2.5 seconds, and resets
the script status to pending_approval. -/
theorem claim6_update_content (s : Script) (l : Listing) (c : String)
    (eb : Option String) (now : Nat) :
    (scriptUpdate s l c eb now).1.versions
      = s.versions ++
        [{ content := s.content, createdAt := now,
           createdBy := eb.getD "admin" }] ∧
    (scriptUpdate s l c eb now).1.content = c ∧
    (scriptUpdate s l c eb now).1.wordCount = jsWordCount c ∧
    (scriptUpdate s l c eb now).1.estimatedDuration
      = ⌈(jsWordCount c : ℚ) / (5 / 2)⌉₊ ∧
    (scriptUpdate s l c eb now).1.status = ScriptStatus.pending_approval := by
  refine ⟨rfl, rfl, rfl, ?_, rfl⟩
  show jsCeilDiv25 (jsWordCount c) = _
  exact jsCeilDiv25_eq_ceil _

/-- Claim C9: publishing a video that is not approved fails with an error
and changes neither the video nor the parent Listing; publishing an
approved video marks it published, records publishedAt and the channel
id, and sets the parent Listing to published. -/
theorem claim9_publish (v : Video) (l : Listing) (ch : Option String)
    (now : Nat) :
    (v.status ≠ VideoStatus.approved →
      videoPublish v l ch now
        = ((v, l), Except.error ApiError.notApprovedForPublish)) ∧
    (v.status = VideoStatus.approved →
      videoPublish v l ch now
        = (({ v with
                status := VideoStatus.published,
                publishedAt := some now,
                fastChannelId := ch },
            { l with status := ListingStatus.published }),
           Except.ok ())) := by
  constructor
  · intro h
    rw [videoPublish, if_pos h]
  · intro h
    rw [videoPublish, if_neg (by simp [h])]

/-- Witness for claim C9: a ready (not yet approved) video is refused
with the not-approved error and nothing changes; an approved video is
published. -/
theorem claim9_publish_witness :
    videoReadyW.status ≠ VideoStatus.approved ∧
    videoPublish videoReadyW listingVaW none 6
      = ((videoReadyW, listingVaW),
         Except.error ApiError.notApprovedForPublish) ∧
    videoApprovedW.status = VideoStatus.approved ∧
    videoPublish videoApprovedW listingVaW (some "fast-1") 6
      = (({ videoApprovedW with
              status := VideoStatus.published,
              publishedAt := some 6,
              fastChannelId := some "fast-1" },
          { listingVaW with status := ListingStatus.published }),
         Except.ok ()) := by
  refine ⟨by decide, (claim9_publish videoReadyW listingVaW none 6).1 (by decide),
    rfl, (claim9_publish videoApprovedW listingVaW (some "fast-1") 6).2 rfl⟩

/-- Claim C2 as stated fails on the code: listingController.regenerateVideo
unlinks the stale artifact first and only afterwards triggers the
fire-and-forget video generation, whose outcome is never awaited or
checked.  At the concrete listing the emitted trace deletes the file
strictly before the dispatch event, and the post-state file store no
longer holds the artifact even though no dispatch confirmation ever
arrived. -/
theorem claim2_counterexample :
    (regenerateVideoListing filesW listingRegenW).2
      = [PipelineEvent.deleteFile "output/video-S1.mp4",
         PipelineEvent.dispatchVideoGen "S1" "D1"] ∧
    "output/video-S1.mp4" ∉ (regenerateVideoListing filesW listingRegenW).1.1 := by
  refine ⟨rfl, ?_⟩
  have h : (regenerateVideoListing filesW listingRegenW).1.1 = ([] : List String) := rfl
  rw [h]
  exact List.not_mem_nil _

/-- Claim C2 amended: in both regenerate endpoints the stale artifact
file is deleted strictly before the regeneration dispatch is triggered,
and unconditionally on the dispatch outcome: the deletion event precedes
the dispatch event in the emitted trace and the file is removed from the
store, whether or not the never-awaited dispatch later fails. -/
theorem claim2_amended (files : List String) (l : Listing) (v : Video)
    (p : String) (hp : l.assets.videoPath = some p) (hpin : p ∈ files)
    (hvin : v.path ∈ files) :
    (regenerateVideoListing files l).2
      = [PipelineEvent.deleteFile p,
         PipelineEvent.dispatchVideoGen l.stockNumber l.dealerId] ∧
    (regenerateVideoListing files l).1.1 = files.erase p ∧
    (regenerateVideoDoc files v).2
      = [PipelineEvent.deleteFile v.path,
         PipelineEvent.dispatchVideoGen v.listingId v.dealerId] ∧
    (regenerateVideoDoc files v).1.1 = files.erase v.path := by
  refine ⟨?_, ?_, ?_, ?_⟩ <;>
    simp [regenerateVideoListing, regenerateVideoDoc, hp, hpin, hvin]

/-- Witness for claim C2 amended, at a store holding the one stale
artifact of the listing and of the video document. -/
theorem claim2_amended_witness :
    listingRegenW.assets.videoPath = some "output/video-S1.mp4" ∧
    "output/video-S1.mp4" ∈ filesW ∧
    videoRegenW.path ∈ filesW ∧
    (regenerateVideoListing filesW listingRegenW).2
      = [PipelineEvent.deleteFile "output/video-S1.mp4",
         PipelineEvent.dispatchVideoGen listingRegenW.stockNumber
           listingRegenW.dealerId] ∧
    (regenerateVideoListing filesW listingRegenW).1.1
      = filesW.erase "output/video-S1.mp4" ∧
    (regenerateVideoDoc filesW videoRegenW).2
      = [PipelineEvent.deleteFile videoRegenW.path,
         PipelineEvent.dispatchVideoGen videoRegenW.listingId
           videoRegenW.dealerId] ∧
    (regenerateVideoDoc filesW videoRegenW).1.1
      = filesW.erase videoRegenW.path := by
  have h := claim2_amended filesW listingRegenW videoRegenW
    "output/video-S1.mp4" rfl (by simp [filesW]) (by simp [filesW, videoRegenW])
  exact ⟨rfl, by simp [filesW], by simp [filesW, videoRegenW],
    h.1, h.2.1, h.2.2.1, h.2.2.2⟩

/-- Claim C7: with a well-formed Range header bytes start-end inside the
file, the stream endpoint answers 206 with the Content-Range,
Accept-Ranges, Content-Length and Content-Type headers of the source and
a body of exactly the requested inclusive span; without a Range header it
answers 200 with the full body. -/
theorem claim7_stream (fileBytes : List Nat) (start e : Nat)
    (h1 : start ≤ e) (h2 : e < fileBytes.length) :
    (videoStream fileBytes (some (start, some e))).status = 206 ∧
    (videoStream fileBytes (some (start, some e))).contentRange
      = some ("bytes " ++ toString start ++ "-" ++ toString e ++ "/"
          ++ toString fileBytes.length) ∧
    (videoStream fileBytes (some (start, some e))).acceptRanges
      = some "bytes" ∧
    (videoStream fileBytes (some (start, some e))).contentLength
      = e - start + 1 ∧
    (videoStream fileBytes (some (start, some e))).contentType
      = "video/mp4" ∧
    (videoStream fileBytes (some (start, some e))).body.length
      = e - start + 1 ∧
    fileBytes = fileBytes.take start
        ++ (videoStream fileBytes (some (start, some e))).body
        ++ fileBytes.drop (e + 1) ∧
    (videoStream fileBytes none).status = 200 ∧
    (videoStream fileBytes none).contentLength = fileBytes.length ∧
    (videoStream fileBytes none).body = fileBytes := by
  refine ⟨rfl, rfl, rfl, rfl, rfl, ?_, ?_, rfl, rfl, rfl⟩
  · show ((fileBytes.drop start).take (e - start + 1)).length = e - start + 1
    rw [List.length_take, List.length_drop]
    omega
  · show fileBytes = fileBytes.take start
        ++ (fileBytes.drop start).take (e - start + 1)
        ++ fileBytes.drop (e + 1)
    have h4 : (fileBytes.drop start).drop (e - start + 1)
        = fileBytes.drop (e + 1) := by
      rw [List.drop_drop]
      congr 1
      omega
    calc fileBytes
        = fileBytes.take start ++ fileBytes.drop start :=
          (List.take_append_drop start fileBytes).symm
      _ = fileBytes.take start
            ++ ((fileBytes.drop start).take (e - start + 1)
              ++ (fileBytes.drop start).drop (e - start + 1)) := by
          rw [List.take_append_drop (e - start + 1) (fileBytes.drop start)]
      _ = fileBytes.take start
            ++ (fileBytes.drop start).take (e - start + 1)
            ++ fileBytes.drop (e + 1) := by
          rw [h4, ← List.append_assoc]

/-- Witness for claim C7, the spec scenario: a 1000-byte file and the
range 0-99 give 206, the matching Content-Range, Content-Length 100 and
the first 100 bytes as body. -/
theorem claim7_stream_witness :
    (0 : Nat) ≤ 99 ∧ 99 < (List.range 1000).length ∧
    (videoStream (List.range 1000) (some (0, some 99))).status = 206 ∧
    (videoStream (List.range 1000) (some (0, some 99))).contentRange
      = some ("bytes " ++ toString (0 : Nat) ++ "-" ++ toString (99 : Nat)
          ++ "/" ++ toString (List.range 1000).length) ∧
    (videoStream (List.range 1000) (some (0, some 99))).contentLength
      = 100 ∧
    (videoStream (List.range 1000) (some (0, some 99))).body.length
      = 100 ∧
    List.range 1000 = (List.range 1000).take 0
        ++ (videoStream (List.range 1000) (some (0, some 99))).body
        ++ (List.range 1000).drop 100 := by
  obtain ⟨hs, hcr, _, hcl, _, hbl, hdec, _⟩ :=
    claim7_stream (List.range 1000) 0 99 (by omega) (by simp)
  exact ⟨by omega, by simp, hs, hcr, hcl, hbl, hdec⟩

/-- Claim C8 as stated fails on the code: scriptController.reject
performs no validation of the reason.  At a concrete pending script and
an empty reason, the call succeeds, mutates the status to rejected and
stores the empty reason instead of failing with a validation error and
mutating nothing. -/
theorem claim8_counterexample :
    scriptPendingW.status = ScriptStatus.pending_approval ∧
    (scriptReject scriptPendingW listingVoW "").1.status
      = ScriptStatus.rejected ∧
    (scriptReject scriptPendingW listingVoW "").1.rejectionReason
      = some "" :=
  ⟨rfl, rfl, rfl⟩

/-- Claim C8 amended: Reject performs no validation of the reason — for
every reason, the empty string included, the script reject sets the
script status to rejected recording the reason verbatim, the video reject
sets the video status to rejected ignoring the reason entirely, and both
leave the parent Listing unchanged. -/
theorem claim8_amended (s : Script) (v : Video) (l l2 : Listing)
    (reason : String) :
    (scriptReject s l reason).1.status = ScriptStatus.rejected ∧
    (scriptReject s l reason).1.rejectionReason = some reason ∧
    (scriptReject s l reason).2 = l ∧
    (videoReject v l2 reason).1.status = VideoStatus.rejected ∧
    (videoReject v l2 reason).2 = l2 :=
  ⟨rfl, rfl, rfl, rfl, rfl⟩

end SlasherTV
